import Mathlib

/-!
Verification model of xwinrestore, a daemon that remembers window positions per
display configuration and restores them when a configuration reappears.

The definitions below are a shallow embedding of `xwinrestore.py`.  Protocol
interactions (property reads, geometry queries, event delivery) are modelled by
explicit environments; machine behaviour that the source computes (clamping,
payload layout, canonical sort, store updates, the poll state machine, the
event-waiter state machine and its timeout loop) is translated directly.
-/

namespace XWinRestore

/-- Interned protocol atoms relevant to window classification.  The source
interns `_NET_WM_STATE_STICKY` and `_NET_WM_STATE_FULLSCREEN` lazily; the model
keeps the two handles as abstract natural numbers. -/
structure Atoms where
  sticky : Nat
  fullscreen : Nat
deriving DecidableEq

/-- Sentinel desktop number for a window shown on all desktops
(source: `ALL_DESKTOPS = 0xFFFFFFFF`). -/
def ALL_DESKTOPS : Nat := 0xFFFFFFFF

/-! ### Display layout probe (source: class DisplayConfig) -/

/-- One active output tuple `(name, x, y, width, height)` as built by
`DisplayConfig._parse_output`.  Python sorts these tuples lexicographically
(name first, then the geometry fields), so the model uses nested lexicographic
products, which carry the matching linear order. -/
abbrev OutputInfo : Type := Lex (String × Lex (Int × Lex (Int × Lex (Int × Int))))

/-- Build an output tuple. -/
def mkOutputInfo (name : String) (x y width height : Int) : OutputInfo :=
  toLex (name, toLex (x, toLex (y, toLex (width, height))))

/-- Raw per-output data returned by the server for one output id, as read by
`DisplayConfig._parse_output`: the connection flag, the id of the controller
driving the output (0 when none), the output name and the controller geometry. -/
structure RawOutput where
  connected : Bool
  crtc : Nat
  name : String
  x : Int
  y : Int
  width : Int
  height : Int
deriving DecidableEq

/-- `DisplayConfig._parse_output` (source lines 121-140): skip outputs that are
not connected, skip outputs with no active controller, otherwise return the
`(name, x, y, width, height)` tuple. -/
def parse_output (output : RawOutput) : Option OutputInfo :=
  if !output.connected then none
  else if output.crtc = 0 then none
  else some (mkOutputInfo output.name output.x output.y output.width output.height)

/-- The canonical display configuration value: the surviving output tuples in
sorted order (source: `self.displays = tuple(sorted(active))`).  Equality is
structural, matching `DisplayConfig.__eq__` which compares the tuples. -/
structure DisplayConfig where
  displays : List OutputInfo
deriving DecidableEq

/-- `DisplayConfig.__init__` (source lines 100-119): parse every reported
output, drop the inactive ones, sort the survivors.  Python `sorted` computes
the unique permutation that is sorted for the (total, antisymmetric) tuple
order, so any correct sort models it; the model uses insertion sort. -/
def DisplayConfig.probe (outputs : List RawOutput) : DisplayConfig :=
  ⟨List.insertionSort (· ≤ ·) (outputs.filterMap parse_output)⟩

/-- Deterministic hash of an integer, standing in for the CPython integer hash.
Any fixed pure function works here: the source relies only on the hash being a
deterministic function of the structure. -/
def intHash (i : Int) : Nat :=
  2 * i.natAbs + if i < 0 then 1 else 0

/-- Deterministic hash of a string, standing in for the CPython string hash. -/
def stringHash (s : String) : Nat :=
  s.data.foldl (fun h c => h * 31 + c.toNat) 7

/-- Deterministic hash of one output tuple, standing in for the CPython tuple
hash. -/
def outputInfoHash (o : OutputInfo) : Nat :=
  match ofLex o with
  | (n, rest1) =>
    match ofLex rest1 with
    | (x, rest2) =>
      match ofLex rest2 with
      | (y, rest3) =>
        match ofLex rest3 with
        | (w, h) =>
          ((((stringHash n) * 1000003 + intHash x) * 1000003 + intHash y) * 1000003
            + intHash w) * 1000003 + intHash h

/-- `DisplayConfig.__hash__` (source lines 161-162): the hash of the sorted
tuple of output tuples, modelled by a deterministic fold. -/
def DisplayConfig.hashVal (c : DisplayConfig) : Nat :=
  c.displays.foldl (fun h o => h * 1000003 + outputInfoHash o) 0x345678

/-! ### Window snapshots (source: class Window) -/

/-- One captured window snapshot: identity, root-relative geometry and the
best-effort metadata fields, exactly the attributes `Window.__init__` stores. -/
structure Window where
  window_id : Nat
  x : Int
  y : Int
  width : Nat
  height : Nat
  desktop_id : Option Nat
  state : Option Nat
  wm_name : Option String
  wm_class : Option String
deriving DecidableEq

/-- Environment one enumeration cycle reads from the X server: the client list
property of the root window, per-window liveness (a dead window makes the
geometry query raise BadDrawable), the root-relative geometry, and the raw
per-window property values as the server would deliver them.  String-valued
properties are modelled already decoded. -/
structure XEnv where
  clientList : Option (List Nat)
  alive : Nat → Bool
  geomX : Nat → Int
  geomY : Nat → Int
  geomW : Nat → Nat
  geomH : Nat → Nat
  desktopProp : Nat → Option (List Nat)
  stateProp : Nat → Option (List Nat)
  nameProp : Nat → Option String
  classProp : Nat → Option (List String)

/-- `_getprop_from_window` (source lines 79-94) for list-valued properties:
`None` when the property is absent, `None` when the delivered value is empty,
otherwise the value truncated to the requested maximum length (the server
returns at most `max_len` 32-bit items). -/
def getprop (full : Option (List Nat)) (max_len : Nat) : Option (List Nat) :=
  match full with
  | none => none
  | some vs =>
      let value := vs.take max_len
      if value.isEmpty then none else some value

/-- `Window._get_wm_class` (source lines 242-254): given the null-separated
components of the WM_CLASS property, pick the second component when there are
at least two, otherwise the first; absent or empty property gives no class. -/
def get_wm_class (comps : Option (List String)) : Option String :=
  match comps with
  | none => none
  | some cs => if cs.length > 1 then cs[1]? else cs[0]?

/-- `Window.__init__` (source lines 169-207): capture geometry and the
best-effort metadata of one live window.  The desktop and state properties are
read with the default maximum length of one item and the first delivered item
is taken; a missing property leaves the field absent. -/
def Window.init (env : XEnv) (window_id : Nat) : Window :=
  let desktop_prop := getprop (env.desktopProp window_id) 1
  let state_prop := getprop (env.stateProp window_id) 1
  { window_id := window_id
    x := env.geomX window_id
    y := env.geomY window_id
    width := env.geomW window_id
    height := env.geomH window_id
    desktop_id := desktop_prop.bind List.head?
    state := state_prop.bind List.head?
    wm_name := env.nameProp window_id
    wm_class := get_wm_class (env.classProp window_id) }

/-- `Window.get_windows` (source lines 209-235): fail when the client-list
property is unavailable; otherwise snapshot each listed window, dropping (with
a logged warning) exactly the entries whose window vanished before inspection. -/
def Window.get_windows (env : XEnv) : Except String (List Window) :=
  match env.clientList with
  | none => .error "display does not support _NET_CLIENT_LIST"
  | some client_list =>
      .ok (client_list.filterMap fun window_id =>
        if env.alive window_id then some (Window.init env window_id) else none)

/-- `Window.safe_x` (source lines 280-284): the x coordinate clamped to a
minimum of zero. -/
def Window.safe_x (w : Window) : Int := max w.x 0

/-- `Window.safe_y` (source lines 286-290): the y coordinate clamped to a
minimum of zero. -/
def Window.safe_y (w : Window) : Int := max w.y 0

/-- The fixed flags word of the move/resize request (source line 332):
static gravity (10), presence bits for x, y, width and height, and the
pager source indication. -/
def MOVERESIZE_FLAGS : Nat := 10 ||| (0xf <<< 8) ||| (0x2 <<< 12)

/-- The five 32-bit payload fields packed by `Window.reposition`
(source lines 325-346): the flags word followed by the clamped coordinates and
the unclamped size. -/
def Window.reposition_msg_arg (w : Window) : List Int :=
  [(MOVERESIZE_FLAGS : Int), w.safe_x, w.safe_y, (w.width : Int), (w.height : Int)]

/-- `Window.should_reposition` (source lines 311-323): repositioning is
refused for a window on all desktops and for a window whose captured state is
the sticky or the fullscreen atom. -/
def Window.should_reposition (w : Window) (atoms : Atoms) : Bool :=
  if w.desktop_id = some ALL_DESKTOPS then false
  else if w.state = some atoms.sticky ∨ w.state = some atoms.fullscreen then false
  else true

/-! ### The state store (source: class StateStore) -/

/-- The mutable store: the currently known display configuration (absent before
the first probe) and the mapping from configurations to the window sequence
last stored under them.  The Python dict keyed by structural equality is
modelled as an association list looked up by structural equality. -/
structure StateStore where
  current : Option DisplayConfig
  stored : List (DisplayConfig × List Window)
deriving DecidableEq

/-- Dict lookup by structural key equality. -/
def lookupStored : List (DisplayConfig × List Window) → DisplayConfig →
    Option (List Window)
  | [], _ => none
  | (k, v) :: rest, key => if k = key then some v else lookupStored rest key

/-- Dict assignment by structural key equality: replace the value of an
existing key in place, otherwise append the new binding. -/
def updateStored : List (DisplayConfig × List Window) → DisplayConfig →
    List Window → List (DisplayConfig × List Window)
  | [], key, v => [(key, v)]
  | (k, v0) :: rest, key, v =>
      if k = key then (key, v) :: rest else (k, v0) :: updateStored rest key v

/-- `StateStore._update_windows` (source lines 361-377): overwrite the entry
for the given configuration with the freshly enumerated windows.  The source
additionally logs geometry deltas against the previous entry; that is
observability only and leaves no state. -/
def StateStore.update_windows (s : StateStore) (dply_state : DisplayConfig)
    (fresh : List Window) : StateStore :=
  { s with stored := updateStored s.stored dply_state fresh }

/-- One observable protocol action of a poll cycle: a move/resize request sent
for a snapshot (with a flag recording whether the send raised, in which case
the source logs and continues), or a connection flush. -/
inductive Action where
  | send (w : Window) (failed : Bool)
  | flush
deriving DecidableEq

/-- Result of one poll cycle: the returned boolean, the store afterwards and
the ordered protocol actions performed. -/
structure PollResult where
  changed : Bool
  store : StateStore
  trace : List Action
deriving DecidableEq

/-- `StateStore.poll` (source lines 419-467).  `probed` is the configuration
the probe would report this cycle and `fresh` the windows enumeration would
report; `fails` tells for each window id whether sending its move/resize
request raises (the source catches the exception, logs and continues).
When the probe is skipped or reports the known configuration, the entry for
the current configuration is overwritten and false is returned.  When the
configuration changed, it is adopted; with no stored entry the fresh windows
are stored, otherwise each stored snapshot passing the eligibility check is
sent a move/resize request in stored order and the connection is flushed once. -/
def StateStore.poll (s : StateStore) (atoms : Atoms) (probed : DisplayConfig)
    (fresh : List Window) (fails : Nat → Bool) (displays_changed : Bool) : PollResult :=
  let curr : Option DisplayConfig :=
    if displays_changed || s.current.isNone then some probed else none
  match curr with
  | none =>
      -- the probe was skipped; the source asserts a current configuration here,
      -- and indeed curr is only none when one is known
      { changed := false
        store := s.update_windows (s.current.getD ⟨[]⟩) fresh
        trace := [] }
  | some cd =>
      if s.current = some cd then
        { changed := false, store := s.update_windows cd fresh, trace := [] }
      else
        let s1 : StateStore := { s with current := some cd }
        match lookupStored s1.stored cd with
        | none =>
            { changed := true, store := s1.update_windows cd fresh, trace := [] }
        | some stored_cfg =>
            { changed := true
              store := s1
              trace := (stored_cfg.filter (fun w => w.should_reposition atoms)).map
                  (fun w => Action.send w (fails w.window_id)) ++ [Action.flush] }

/-! ### The event waiter (source: class EventWaiter) -/

namespace EventWaiter

/-- Source: `STATE_NO_CHANGE = 0`. -/
def STATE_NO_CHANGE : Nat := 0

/-- Source: `STATE_DISP_CHANGED = 1`. -/
def STATE_DISP_CHANGED : Nat := 1

/-- Source: `STATE_DESTROYED = 2`. -/
def STATE_DESTROYED : Nat := 2

/-- `EventWaiter._update_state` (source lines 566-572): keep the state when it
already equals the new one or when it is the destroyed state, otherwise adopt
the new state. -/
def update_state (st new_state : Nat) : Nat :=
  if st = new_state ∨ st = STATE_DESTROYED then st else new_state

/-- The event classes `EventWaiter._run` distinguishes. -/
inductive XEvent where
  | destroyNotify
  | crtcChange
  | outputChange
  | other
deriving DecidableEq

/-- One step of `EventWaiter._run` (source lines 546-564): the drain loop stops
once destroyed; a destroy notification moves to the destroyed state, a
controller or output change notification to the display-changed state, any
other event is ignored. -/
def handle_event (st : Nat) (e : XEvent) : Nat :=
  if st = STATE_DESTROYED then st
  else
    match e with
    | .destroyNotify => update_state st STATE_DESTROYED
    | .crtcChange => update_state st STATE_DISP_CHANGED
    | .outputChange => update_state st STATE_DISP_CHANGED
    | .other => st

/-- Draining a whole pending-event queue with `EventWaiter._run`. -/
def run_events (st : Nat) (es : List XEvent) : Nat :=
  es.foldl handle_event st

/-- `EventWaiter.flush` (source lines 519-526): return the previous state and
reset to the no-change state unless destroyed. -/
def flush (st : Nat) : Nat × Nat :=
  (st, if st ≠ STATE_DESTROYED then STATE_NO_CHANGE else st)

/-- The timing skeleton of the `EventWaiter.wait` loop (source lines 487-503)
on a run in which every wakeup is spurious (no state transition).  Arguments:
the remaining wakeup times of the readiness primitive (monotonic, measured
from entry), the current remaining-timeout variable and the current monotonic
time; entry is at time zero.  Each iteration recomputes
`rem_timeout -= (now - start_time)` exactly as the source does, breaks when
the budget is exhausted, and otherwise blocks until the next wakeup or for the
remaining budget.  The value returned is the monotonic time at which the loop
stops blocking. -/
def waitLoop : List Int → Int → Int → Int
  | [], rem, now =>
      let rem2 := rem - now
      if rem2 ≤ 0 then now else now + rem2
  | w :: rest, rem, now =>
      let rem2 := rem - now
      if rem2 ≤ 0 then now
      else if w ≤ now + rem2 then waitLoop rest rem2 w
      else now + rem2

/-- `EventWaiter.wait` entered at monotonic time zero with the given timeout,
against a sequence of spurious wakeup times: the monotonic time at which the
call stops blocking. -/
def wait (timeout : Int) (wakes : List Int) : Int :=
  waitLoop wakes timeout 0

end EventWaiter

/-! ### Helper lemmas -/

/-- Looking up the key just written returns the value just written. -/
theorem lookupStored_updateStored_self (l : List (DisplayConfig × List Window))
    (k : DisplayConfig) (v : List Window) :
    lookupStored (updateStored l k v) k = some v := by
  induction l with
  | nil => simp [updateStored, lookupStored]
  | cons kv rest ih =>
      obtain ⟨k0, v0⟩ := kv
      by_cases h : k0 = k
      · simp [updateStored, lookupStored, h]
      · simp [updateStored, lookupStored, h, ih]

/-- Writing a binding never removes any existing binding. -/
theorem lookupStored_updateStored_isSome (l : List (DisplayConfig × List Window))
    (k k2 : DisplayConfig) (v : List Window)
    (h : (lookupStored l k2).isSome) :
    (lookupStored (updateStored l k v) k2).isSome := by
  induction l with
  | nil => simp [lookupStored] at h
  | cons kv rest ih =>
      obtain ⟨k0, v0⟩ := kv
      by_cases hk : k0 = k
      · subst hk
        by_cases hk2 : k0 = k2
        · simp [updateStored, lookupStored, hk2]
        · simp [updateStored, lookupStored, hk2] at h ⊢
          exact h
      · by_cases hk2 : k0 = k2
        · subst hk2
          simp [updateStored, lookupStored, hk]
        · simp [updateStored, lookupStored, hk, hk2] at h ⊢
          exact ih h

/-- Rewriting a binding with the value it already has leaves the dict intact. -/
theorem updateStored_self (l : List (DisplayConfig × List Window))
    (k : DisplayConfig) (v : List Window)
    (h : lookupStored l k = some v) :
    updateStored l k v = l := by
  induction l with
  | nil => simp [lookupStored] at h
  | cons kv rest ih =>
      obtain ⟨k0, v0⟩ := kv
      by_cases hk : k0 = k
      · subst hk
        simp [lookupStored] at h
        simp [updateStored, h]
      · simp [lookupStored, hk] at h
        simp [updateStored, hk, ih h]

/-- A snapshot on all desktops or in the sticky or fullscreen state is
ineligible. -/
theorem should_reposition_eq_false {atoms : Atoms} {w : Window}
    (h : w.desktop_id = some ALL_DESKTOPS ∨ w.state = some atoms.sticky
      ∨ w.state = some atoms.fullscreen) :
    w.should_reposition atoms = false := by
  unfold Window.should_reposition
  split_ifs with h1 h2
  · rfl
  · rfl
  · rcases h with h | h | h
    · exact absurd h h1
    · exact absurd (Or.inl h) h2
    · exact absurd (Or.inr h) h2

/-- Enumerating with a liveness filter is snapshotting exactly the still-live
listed windows, in list order. -/
theorem filterMap_alive (env : XEnv) (ids : List Nat) :
    (ids.filterMap fun window_id =>
        if env.alive window_id then some (Window.init env window_id) else none)
      = (ids.filter env.alive).map (Window.init env) := by
  induction ids with
  | nil => rfl
  | cons i rest ih =>
      by_cases h : env.alive i
      · simp [List.filterMap_cons, List.filter_cons, h, ih]
      · simp [List.filterMap_cons, List.filter_cons, h, ih]

/-! ### Claims -/

/-- Claim C1: for every window snapshot, the move/resize payload built by
reposition is the fixed flags word (static gravity, all four geometry fields
present, pager-class source) followed by max(x,0), max(y,0), width, height;
for a snapshot captured with nonnegative x and y it carries exactly the
captured geometry, and a snapshot captured at x = -5, y = 3 emits x = 0, y = 3
with width and height unchanged. -/
theorem C1_reposition_payload (w : Window) :
    w.reposition_msg_arg
      = [(MOVERESIZE_FLAGS : Int), max w.x 0, max w.y 0, (w.width : Int), (w.height : Int)]
    ∧ MOVERESIZE_FLAGS = 10 ||| (0xf <<< 8) ||| (0x2 <<< 12)
    ∧ (0 ≤ w.x → 0 ≤ w.y →
        w.reposition_msg_arg
          = [(MOVERESIZE_FLAGS : Int), w.x, w.y, (w.width : Int), (w.height : Int)])
    ∧ (w.x = -5 → w.y = 3 →
        w.reposition_msg_arg
          = [(MOVERESIZE_FLAGS : Int), 0, 3, (w.width : Int), (w.height : Int)]) := by
  refine ⟨rfl, rfl, ?_, ?_⟩
  · intro hx hy
    simp [Window.reposition_msg_arg, Window.safe_x, Window.safe_y,
      max_eq_left hx, max_eq_left hy]
  · intro hx hy
    simp [Window.reposition_msg_arg, Window.safe_x, Window.safe_y, hx, hy]

/-- Witness for C1 at two concrete snapshots. -/
theorem C1_reposition_payload_witness :
    (⟨1, 10, 20, 800, 600, none, none, none, none⟩ : Window).reposition_msg_arg
      = [(MOVERESIZE_FLAGS : Int), 10, 20, 800, 600]
    ∧ (⟨2, -5, 3, 800, 600, none, none, none, none⟩ : Window).reposition_msg_arg
      = [(MOVERESIZE_FLAGS : Int), 0, 3, 800, 600] :=
  ⟨(C1_reposition_payload ⟨1, 10, 20, 800, 600, none, none, none, none⟩).2.2.1
      (by decide) (by decide),
   (C1_reposition_payload ⟨2, -5, 3, 800, 600, none, none, none, none⟩).2.2.2
      rfl rfl⟩

/-- Claim C3: two layout probes that observe the same set of active outputs,
regardless of the enumeration order in which the server reports them, produce
DisplayConfig values that are equal, structurally equal and hash equal (the
probe sorts the surviving tuples canonically and equality is structural). -/
theorem C3_probe_canonical (l₁ l₂ : List RawOutput) (h : l₁.Perm l₂) :
    DisplayConfig.probe l₁ = DisplayConfig.probe l₂
    ∧ (DisplayConfig.probe l₁).displays = (DisplayConfig.probe l₂).displays
    ∧ (DisplayConfig.probe l₁).hashVal = (DisplayConfig.probe l₂).hashVal := by
  have hp : (l₁.filterMap parse_output).Perm (l₂.filterMap parse_output) :=
    h.filterMap _
  have he : DisplayConfig.probe l₁ = DisplayConfig.probe l₂ := by
    unfold DisplayConfig.probe
    exact congrArg DisplayConfig.mk
      (List.eq_of_perm_of_sorted
        ((List.perm_insertionSort _ _).trans (hp.trans (List.perm_insertionSort _ _).symm))
        (List.sorted_insertionSort _ _) (List.sorted_insertionSort _ _))
  exact ⟨he, congrArg DisplayConfig.displays he, congrArg DisplayConfig.hashVal he⟩

/-- A connected, driven laptop output. -/
def roA : RawOutput := ⟨true, 1, "eDP", 0, 0, 1920, 1080⟩

/-- A connected, driven external output. -/
def roB : RawOutput := ⟨true, 2, "HDMI", 1920, 0, 1920, 1080⟩

/-- Witness for C3 at two concrete enumeration orders of the same outputs. -/
theorem C3_probe_canonical_witness :
    ([roA, roB] : List RawOutput).Perm [roB, roA]
    ∧ DisplayConfig.probe [roA, roB] = DisplayConfig.probe [roB, roA] :=
  ⟨by decide, (C3_probe_canonical [roA, roB] [roB, roA] (by decide)).1⟩

/-- Claim C4: the first-ever poll(true) on a fresh store (no current layout,
empty store) returns true, adopts the probed layout as current, stores the
fresh window enumeration under it and performs no reposition call and no
flush. -/
theorem C4_first_poll (atoms : Atoms) (probed : DisplayConfig) (fresh : List Window)
    (fails : Nat → Bool) :
    StateStore.poll ⟨none, []⟩ atoms probed fresh fails true
      = { changed := true
          store := { current := some probed, stored := [(probed, fresh)] }
          trace := [] } := rfl

/-- Claim C7 evaluation: the wait loop subtracts the cumulative elapsed time
from an already-decremented budget on every iteration, so with a timeout of 10
and spurious wakeups (no state transition) at monotonic times 4 and 7 it stops
blocking at time 7, before the requested timeout has elapsed; with at most one
spurious wakeup the full budget is still honoured. -/
theorem C7_wait_underwaits :
    EventWaiter.wait 10 [4, 7] = 7 ∧ EventWaiter.wait 10 [4, 7] < 10
    ∧ EventWaiter.wait 10 [] = 10 ∧ EventWaiter.wait 10 [4] = 10 := by
  decide

/-- Claim C8: the destroyed (Terminated) state is absorbing — no state update
request, no drained event sequence and no flush ever leaves it — while flush
returns any other state reached and resets it to the idle state for the next
cycle. -/
theorem C8_terminated_absorbing (es : List EventWaiter.XEvent) (n st : Nat)
    (h : st ≠ EventWaiter.STATE_DESTROYED) :
    EventWaiter.update_state EventWaiter.STATE_DESTROYED n = EventWaiter.STATE_DESTROYED
    ∧ EventWaiter.run_events EventWaiter.STATE_DESTROYED es = EventWaiter.STATE_DESTROYED
    ∧ EventWaiter.flush EventWaiter.STATE_DESTROYED
        = (EventWaiter.STATE_DESTROYED, EventWaiter.STATE_DESTROYED)
    ∧ EventWaiter.flush st = (st, EventWaiter.STATE_NO_CHANGE) := by
  refine ⟨?_, ?_, rfl, ?_⟩
  · simp [EventWaiter.update_state]
  · induction es with
    | nil => rfl
    | cons e rest ih =>
        have hstep : EventWaiter.handle_event EventWaiter.STATE_DESTROYED e
            = EventWaiter.STATE_DESTROYED := by
          simp [EventWaiter.handle_event]
        show EventWaiter.run_events
            (EventWaiter.handle_event EventWaiter.STATE_DESTROYED e) rest
          = EventWaiter.STATE_DESTROYED
        rw [hstep]
        exact ih
  · simp [EventWaiter.flush, h]

/-- Witness for C8 at a concrete non-terminated state and event. -/
theorem C8_terminated_absorbing_witness :
    EventWaiter.update_state EventWaiter.STATE_DESTROYED 1 = EventWaiter.STATE_DESTROYED
    ∧ EventWaiter.run_events EventWaiter.STATE_DESTROYED
        [EventWaiter.XEvent.crtcChange] = EventWaiter.STATE_DESTROYED
    ∧ EventWaiter.flush EventWaiter.STATE_DISP_CHANGED
        = (EventWaiter.STATE_DISP_CHANGED, EventWaiter.STATE_NO_CHANGE) :=
  ⟨(C8_terminated_absorbing [EventWaiter.XEvent.crtcChange] 1
      EventWaiter.STATE_DISP_CHANGED (by decide)).1,
   (C8_terminated_absorbing [EventWaiter.XEvent.crtcChange] 1
      EventWaiter.STATE_DISP_CHANGED (by decide)).2.1,
   (C8_terminated_absorbing [EventWaiter.XEvent.crtcChange] 1
      EventWaiter.STATE_DISP_CHANGED (by decide)).2.2.2⟩

/-- Claim C9: during enumeration a missing per-window property yields an
absent field instead of an error; a listed window that has disappeared is
dropped (exactly that entry) and enumeration of the remaining identifiers
continues in order; enumeration fails only when the client-list property
itself is unavailable. -/
theorem C9_enumeration (env : XEnv) :
    (env.clientList = none →
      Window.get_windows env = .error "display does not support _NET_CLIENT_LIST")
    ∧ (∀ ids, env.clientList = some ids →
        Window.get_windows env = .ok ((ids.filter env.alive).map (Window.init env)))
    ∧ (∀ window_id, env.desktopProp window_id = none →
        (Window.init env window_id).desktop_id = none)
    ∧ (∀ window_id, env.stateProp window_id = none →
        (Window.init env window_id).state = none)
    ∧ (∀ window_id, env.nameProp window_id = none →
        (Window.init env window_id).wm_name = none)
    ∧ (∀ window_id, env.classProp window_id = none →
        (Window.init env window_id).wm_class = none) := by
  refine ⟨?_, ?_, ?_, ?_, ?_, ?_⟩
  · intro h
    simp [Window.get_windows, h]
  · intro ids h
    simp [Window.get_windows, h, filterMap_alive]
  · intro i h
    simp [Window.init, getprop, h]
  · intro i h
    simp [Window.init, getprop, h]
  · intro i h
    simp [Window.init, h]
  · intro i h
    simp [Window.init, get_wm_class, h]

/-- Enumeration environment with three listed windows of which the second has
disappeared, and with every optional property missing. -/
def envC9 : XEnv :=
  { clientList := some [1, 2, 3]
    alive := fun window_id => decide (window_id ≠ 2)
    geomX := fun _ => 0
    geomY := fun _ => 0
    geomW := fun _ => 10
    geomH := fun _ => 10
    desktopProp := fun _ => none
    stateProp := fun _ => none
    nameProp := fun _ => none
    classProp := fun _ => none }

/-- Witness for C9: the dead window 2 is dropped, windows 1 and 3 survive,
and the missing properties yield absent fields. -/
theorem C9_enumeration_witness :
    Window.get_windows envC9 = .ok [Window.init envC9 1, Window.init envC9 3]
    ∧ (Window.init envC9 1).desktop_id = none
    ∧ (Window.init envC9 1).state = none
    ∧ (Window.init envC9 1).wm_class = none :=
  ⟨by rw [(C9_enumeration envC9).2.1 [1, 2, 3] rfl]; rfl,
   (C9_enumeration envC9).2.2.1 1 rfl,
   (C9_enumeration envC9).2.2.2.1 1 rfl,
   (C9_enumeration envC9).2.2.2.2.2 1 rfl⟩

/-- Claim C10: a snapshot records only the first element of the state property
(read with a maximum length of one) and only the first element of the desktop
property; consequently a window whose sticky atom appears in its state list
but not as the first element still passes the eligibility check. -/
theorem C10_state_first_element (atoms : Atoms) (env : XEnv) (window_id a d : Nat)
    (rest drest : List Nat) :
    (env.stateProp window_id = some (a :: rest) →
      (Window.init env window_id).state = some a)
    ∧ (env.desktopProp window_id = some (d :: drest) →
      (Window.init env window_id).desktop_id = some d)
    ∧ (env.stateProp window_id = some (a :: rest) → atoms.sticky ∈ rest →
        a ≠ atoms.sticky → a ≠ atoms.fullscreen →
        (Window.init env window_id).desktop_id ≠ some ALL_DESKTOPS →
        (Window.init env window_id).should_reposition atoms = true) := by
  refine ⟨?_, ?_, ?_⟩
  · intro h
    simp [Window.init, getprop, h]
  · intro h
    simp [Window.init, getprop, h]
  · intro h hmem hs hf hd
    have hstate : (Window.init env window_id).state = some a := by
      simp [Window.init, getprop, h]
    unfold Window.should_reposition
    rw [if_neg hd, if_neg]
    rw [hstate]
    simp [hs, hf]

/-- Environment for the C10 witness: the state property of window 1 delivers
the list [3, 5] whose second element is the sticky atom 5. -/
def envC10 : XEnv :=
  { clientList := some [1]
    alive := fun _ => true
    geomX := fun _ => 0
    geomY := fun _ => 0
    geomW := fun _ => 100
    geomH := fun _ => 100
    desktopProp := fun _ => some [0]
    stateProp := fun _ => some [3, 5]
    nameProp := fun _ => none
    classProp := fun _ => none }

/-- Witness for C10: with sticky atom 5 listed second, the captured state is
the first element 3 and the window stays eligible. -/
theorem C10_state_first_element_witness :
    (Window.init envC10 1).state = some 3
    ∧ (Window.init envC10 1).desktop_id = some 0
    ∧ (Window.init envC10 1).should_reposition ⟨5, 6⟩ = true :=
  ⟨(C10_state_first_element ⟨5, 6⟩ envC10 1 3 0 [5] []).1 rfl,
   (C10_state_first_element ⟨5, 6⟩ envC10 1 3 0 [5] []).2.1 rfl,
   (C10_state_first_element ⟨5, 6⟩ envC10 1 3 0 [5] []).2.2 rfl (by decide)
      (by decide) (by decide) (by decide)⟩

/-- Poll branch: probe skipped (flag false, current layout known).  The entry
for the current layout is overwritten with the fresh enumeration and false is
returned with no protocol action. -/
theorem poll_skip (s : StateStore) (atoms : Atoms) (probed : DisplayConfig)
    (fresh : List Window) (fails : Nat → Bool) (cd : DisplayConfig)
    (hcur : s.current = some cd) :
    s.poll atoms probed fresh fails false
      = { changed := false, store := s.update_windows cd fresh, trace := [] } := by
  obtain ⟨cur, stored⟩ := s
  simp only at hcur
  subst hcur
  rfl

/-- Poll branch: probe ran and reported the already-current layout.  Same
cheap path as the skipped probe. -/
theorem poll_same (s : StateStore) (atoms : Atoms) (fresh : List Window)
    (fails : Nat → Bool) (dc : Bool) (cd : DisplayConfig)
    (hcur : s.current = some cd) :
    s.poll atoms cd fresh fails dc
      = { changed := false, store := s.update_windows cd fresh, trace := [] } := by
  obtain ⟨cur, stored⟩ := s
  simp only at hcur
  subst hcur
  cases dc
  · rfl
  · show (if some cd = some cd then _ else _) = _
    rw [if_pos rfl]

/-- Poll branch: probe ran (flag true or no layout known yet) and reported a
layout different from the current one, with no stored entry for it.  The new
layout is adopted, the fresh enumeration is stored under it and true is
returned with no protocol action. -/
theorem poll_changed_new (s : StateStore) (atoms : Atoms) (b : DisplayConfig)
    (fresh : List Window) (fails : Nat → Bool) (dc : Bool)
    (hdc : (dc || s.current.isNone) = true)
    (hne : s.current ≠ some b)
    (hlook : lookupStored s.stored b = none) :
    s.poll atoms b fresh fails dc
      = { changed := true
          store := { current := some b, stored := updateStored s.stored b fresh }
          trace := [] } := by
  unfold StateStore.poll
  rw [if_pos hdc]
  show (if s.current = some b then _ else _) = _
  rw [if_neg hne]
  show (match lookupStored s.stored b with
        | none => _
        | some stored_cfg => _) = _
  rw [hlook]
  rfl

/-- Poll branch: probe ran and reported a layout different from the current
one, with a stored entry.  The new layout is adopted, the store mapping is
left untouched, every stored snapshot passing the eligibility check is sent a
move/resize request in stored order, the connection is flushed once after the
pass and true is returned. -/
theorem poll_changed_stored (s : StateStore) (atoms : Atoms) (b : DisplayConfig)
    (fresh : List Window) (fails : Nat → Bool) (dc : Bool) (ws : List Window)
    (hdc : (dc || s.current.isNone) = true)
    (hne : s.current ≠ some b)
    (hlook : lookupStored s.stored b = some ws) :
    s.poll atoms b fresh fails dc
      = { changed := true
          store := { current := some b, stored := s.stored }
          trace := (ws.filter (fun w => w.should_reposition atoms)).map
              (fun w => Action.send w (fails w.window_id)) ++ [Action.flush] } := by
  unfold StateStore.poll
  rw [if_pos hdc]
  show (if s.current = some b then _ else _) = _
  rw [if_neg hne]
  show (match lookupStored s.stored b with
        | none => _
        | some stored_cfg => _) = _
  rw [hlook]

/-- Claim C2: when poll switches to a layout that has a stored entry it walks
the stored snapshots in stored order and calls reposition exactly on those for
which the eligibility check holds — an all-desktops, sticky or fullscreen
snapshot is never passed to reposition — a per-window send failure (the failed
flag of the action, logged by the source) skips only that window, the
connection is flushed exactly once after the full pass, and poll returns
true. -/
theorem C2_poll_restores (atoms : Atoms) (s : StateStore) (a b : DisplayConfig)
    (ws fresh : List Window) (fails : Nat → Bool)
    (hcur : s.current = some a) (hne : a ≠ b)
    (hlook : lookupStored s.stored b = some ws) :
    (s.poll atoms b fresh fails true).changed = true
    ∧ (s.poll atoms b fresh fails true).trace
        = (ws.filter (fun w => w.should_reposition atoms)).map
            (fun w => Action.send w (fails w.window_id)) ++ [Action.flush]
    ∧ (∀ w ∈ ws, (w.desktop_id = some ALL_DESKTOPS
        ∨ w.state = some atoms.sticky ∨ w.state = some atoms.fullscreen) →
        ∀ f, Action.send w f ∉ (s.poll atoms b fresh fails true).trace)
    ∧ (∀ w ∈ ws, w.should_reposition atoms = true →
        Action.send w (fails w.window_id) ∈ (s.poll atoms b fresh fails true).trace)
    ∧ ((s.poll atoms b fresh fails true).trace.count Action.flush = 1)
    ∧ (s.poll atoms b fresh fails true).store.current = some b
    ∧ (s.poll atoms b fresh fails true).store.stored = s.stored := by
  have hne2 : s.current ≠ some b := by
    rw [hcur]
    simp [hne]
  have hp := poll_changed_stored s atoms b fresh fails true ws (by simp) hne2 hlook
  rw [hp]
  refine ⟨rfl, rfl, ?_, ?_, ?_, rfl, rfl⟩
  · intro w hw hins f hmemtr
    have hfalse := @should_reposition_eq_false atoms w hins
    rcases List.mem_append.mp hmemtr with hmem | hmem
    · rcases List.mem_map.mp hmem with ⟨w2, hw2, heq⟩
      obtain ⟨hww, -⟩ := Action.send.inj heq
      subst hww
      have h2 := (List.mem_filter.mp hw2).2
      rw [hfalse] at h2
      exact Bool.false_ne_true h2
    · simp at hmem
  · intro w hw hrep
    exact List.mem_append.mpr
      (Or.inl (List.mem_map.mpr ⟨w, List.mem_filter.mpr ⟨hw, hrep⟩, rfl⟩))
  · have h0 : Action.flush ∉ (ws.filter (fun w => w.should_reposition atoms)).map
        (fun w => Action.send w (fails w.window_id)) := by
      intro hmem
      rcases List.mem_map.mp hmem with ⟨w2, -, heq⟩
      exact Action.noConfusion heq
    rw [List.count_append, List.count_eq_zero.mpr h0]
    rfl

/-- Atom handles used by the concrete scenarios: sticky is 101, fullscreen is
102. -/
def atomsW : Atoms := ⟨101, 102⟩

/-- A single-monitor layout. -/
def dcA : DisplayConfig := ⟨[mkOutputInfo "eDP" 0 0 1920 1080]⟩

/-- A two-monitor layout. -/
def dcB : DisplayConfig :=
  ⟨[mkOutputInfo "HDMI" 1920 0 1920 1080, mkOutputInfo "eDP" 0 0 1920 1080]⟩

/-- An ordinary eligible window. -/
def wEligible : Window := ⟨1, 10, 10, 800, 600, some 0, none, some "term", none⟩

/-- A panel-like window on all desktops. -/
def wPanel : Window := ⟨2, 0, 0, 1920, 30, some ALL_DESKTOPS, none, none, none⟩

/-- A sticky window (state is the sticky atom of atomsW). -/
def wSticky : Window := ⟨3, 5, 5, 100, 100, some 0, some 101, none, none⟩

/-- A fullscreen window (state is the fullscreen atom of atomsW). -/
def wFull : Window := ⟨4, 0, 0, 1920, 1080, some 0, some 102, none, none⟩

/-- Store whose current layout is dcA and which has a stored entry for dcB
with one eligible and three ineligible windows. -/
def storeW : StateStore :=
  ⟨some dcA, [(dcB, [wPanel, wEligible, wSticky, wFull])]⟩

/-- Witness for C2: switching to dcB repositions exactly the eligible window
and flushes once. -/
theorem C2_poll_restores_witness :
    (storeW.poll atomsW dcB [] (fun _ => false) true).changed = true
    ∧ (storeW.poll atomsW dcB [] (fun _ => false) true).trace
        = [Action.send wEligible false, Action.flush]
    ∧ (storeW.poll atomsW dcB [] (fun _ => false) true).store.stored
        = storeW.stored := by
  have h := C2_poll_restores atomsW storeW dcA dcB
      [wPanel, wEligible, wSticky, wFull] [] (fun _ => false) rfl (by decide) (by decide)
  refine ⟨h.1, ?_, h.2.2.2.2.2.2⟩
  rw [h.2.1]
  rfl

/-- A stored snapshot of window 1. -/
def wOld : Window := ⟨1, 10, 10, 800, 600, some 0, none, none, none⟩

/-- A fresh snapshot of window 1 at a different position. -/
def wNew : Window := ⟨1, 500, 500, 800, 600, some 0, none, none, none⟩

/-- Counterexample for claim C5 as stated: a poll that switches to a layout
with a stored entry takes the restoration path and does not overwrite the
entry for the now-current layout with the fresh enumeration — the old
snapshot remains stored. -/
theorem C5_store_update_counterexample :
    (StateStore.poll ⟨some dcA, [(dcB, [wOld])]⟩ atomsW dcB [wNew]
        (fun _ => false) true).store.current = some dcB
    ∧ lookupStored (StateStore.poll ⟨some dcA, [(dcB, [wOld])]⟩ atomsW dcB [wNew]
        (fun _ => false) true).store.stored dcB = some [wOld]
    ∧ ([wOld] : List Window) ≠ [wNew] := by
  decide

/-- Claim C5, amended: after every poll that does not take the restoration
path (its trace is empty), the entry for the layout that is current at return
has been created or fully overwritten with the fresh enumeration of that
cycle; a poll that takes the restoration path leaves the stored mapping
entirely unchanged; and no poll ever removes a store entry, so an entry
persists for the process lifetime. -/
theorem C5_store_update_amended (atoms : Atoms) (probed : DisplayConfig)
    (fresh : List Window) (fails : Nat → Bool) (dc : Bool) (s : StateStore) :
    (∀ k, (lookupStored s.stored k).isSome →
      (lookupStored (s.poll atoms probed fresh fails dc).store.stored k).isSome)
    ∧ ((s.poll atoms probed fresh fails dc).trace = [] →
        ∃ key, (s.poll atoms probed fresh fails dc).store.current = some key
          ∧ (s.poll atoms probed fresh fails dc).store.stored
              = updateStored s.stored key fresh
          ∧ lookupStored (s.poll atoms probed fresh fails dc).store.stored key
              = some fresh)
    ∧ ((s.poll atoms probed fresh fails dc).trace ≠ [] →
        (s.poll atoms probed fresh fails dc).store.stored = s.stored) := by
  rcases hc : s.current with _ | cd
  · -- no layout known yet: the probe is forced and its result adopted
    have hforce : (dc || s.current.isNone) = true := by
      rw [hc]
      simp
    have hne : s.current ≠ some probed := by
      rw [hc]
      simp
    rcases hl : lookupStored s.stored probed with _ | ws
    · rw [poll_changed_new s atoms probed fresh fails dc hforce hne hl]
      refine ⟨?_, ?_, ?_⟩
      · intro k hk
        exact lookupStored_updateStored_isSome _ _ _ _ hk
      · intro _
        exact ⟨probed, rfl, rfl, lookupStored_updateStored_self _ _ _⟩
      · intro h
        exact absurd rfl h
    · rw [poll_changed_stored s atoms probed fresh fails dc ws hforce hne hl]
      refine ⟨?_, ?_, ?_⟩
      · intro k hk
        exact hk
      · intro htr
        exact absurd htr (by simp)
      · intro _
        rfl
  · by_cases hsame : cd = probed
    · subst hsame
      rw [poll_same s atoms fresh fails dc cd hc]
      refine ⟨?_, ?_, ?_⟩
      · intro k hk
        exact lookupStored_updateStored_isSome _ _ _ _ hk
      · intro _
        exact ⟨cd, hc, rfl, lookupStored_updateStored_self _ _ _⟩
      · intro h
        exact absurd rfl h
    · cases dc with
      | false =>
          rw [poll_skip s atoms probed fresh fails cd hc]
          refine ⟨?_, ?_, ?_⟩
          · intro k hk
            exact lookupStored_updateStored_isSome _ _ _ _ hk
          · intro _
            exact ⟨cd, hc, rfl, lookupStored_updateStored_self _ _ _⟩
          · intro h
            exact absurd rfl h
      | true =>
          have hne : s.current ≠ some probed := by
            rw [hc]
            simp [hsame]
          rcases hl : lookupStored s.stored probed with _ | ws
          · rw [poll_changed_new s atoms probed fresh fails true (by simp) hne hl]
            refine ⟨?_, ?_, ?_⟩
            · intro k hk
              exact lookupStored_updateStored_isSome _ _ _ _ hk
            · intro _
              exact ⟨probed, rfl, rfl, lookupStored_updateStored_self _ _ _⟩
            · intro h
              exact absurd rfl h
          · rw [poll_changed_stored s atoms probed fresh fails true ws (by simp) hne hl]
            refine ⟨?_, ?_, ?_⟩
            · intro k hk
              exact hk
            · intro htr
              exact absurd htr (by simp)
            · intro _
              rfl

/-- Witness for the amended C5: the first poll of a fresh store is a capture
pass, and a poll hitting a stored entry is a restoration pass that leaves the
mapping untouched. -/
theorem C5_store_update_amended_witness :
    (∃ key, (StateStore.poll ⟨none, []⟩ atomsW dcA [wOld]
          (fun _ => false) true).store.current = some key
      ∧ (StateStore.poll ⟨none, []⟩ atomsW dcA [wOld]
          (fun _ => false) true).store.stored = updateStored [] key [wOld]
      ∧ lookupStored (StateStore.poll ⟨none, []⟩ atomsW dcA [wOld]
          (fun _ => false) true).store.stored key = some [wOld])
    ∧ (StateStore.poll ⟨some dcA, [(dcB, [wOld])]⟩ atomsW dcB [wNew]
        (fun _ => false) true).store.stored = [(dcB, [wOld])] :=
  ⟨(C5_store_update_amended atomsW dcA [wOld] (fun _ => false) true ⟨none, []⟩).2.1 rfl,
   (C5_store_update_amended atomsW dcB [wNew] (fun _ => false) true
      ⟨some dcA, [(dcB, [wOld])]⟩).2.2 (by decide)⟩

/-- Claim C6: two consecutive poll(false) calls on a store whose current
layout is known, when re-enumeration reports the stored snapshots unchanged,
both return false, perform no protocol action and leave the store (current
pointer and every entry) exactly as it was. -/
theorem C6_poll_idempotent (atoms : Atoms) (probed : DisplayConfig) (s : StateStore)
    (cd : DisplayConfig) (ws : List Window) (fails : Nat → Bool)
    (hcur : s.current = some cd) (hlook : lookupStored s.stored cd = some ws) :
    s.poll atoms probed ws fails false
      = { changed := false, store := s, trace := [] }
    ∧ (s.poll atoms probed ws fails false).store.poll atoms probed ws fails false
      = { changed := false, store := s, trace := [] } := by
  have h1 : s.poll atoms probed ws fails false
      = { changed := false, store := s, trace := [] } := by
    rw [poll_skip s atoms probed ws fails cd hcur]
    have h2 : s.update_windows cd ws = s := by
      unfold StateStore.update_windows
      rw [updateStored_self s.stored cd ws hlook]
    rw [h2]
  refine ⟨h1, ?_⟩
  rw [h1]
  exact h1

/-- Store whose current layout dcA has a stored entry holding the one window
that re-enumeration will report unchanged. -/
def storeIdem : StateStore := ⟨some dcA, [(dcA, [wEligible])]⟩

/-- Witness for C6 at a concrete store and unchanged enumeration. -/
theorem C6_poll_idempotent_witness :
    storeIdem.poll atomsW dcA [wEligible] (fun _ => false) false
      = { changed := false, store := storeIdem, trace := [] }
    ∧ (storeIdem.poll atomsW dcA [wEligible] (fun _ => false) false).store.poll
        atomsW dcA [wEligible] (fun _ => false) false
      = { changed := false, store := storeIdem, trace := [] } :=
  C6_poll_idempotent atomsW dcA storeIdem dcA [wEligible] (fun _ => false)
    rfl (by decide)

end XWinRestore
